import Mathlib

/-!
Verification of the crawl-server core in `src/main.py`: admission control,
strategy resolution, job fan-out and result shaping for the `/crawl` endpoint.

Python exceptions are embedded as values of an explicit error type; FastAPI
turns an `HTTPException` into a response with the given status code and every
other uncaught exception into a generic 500 internal failure.  The global
counter `current_requests` is passed as explicit state; the `async with lock`
critical sections of the handler appear as single atomic steps of the
embedding.
-/

namespace CrawlServer

/-- `MAX_CONCURRENT_REQUESTS = 10` (src/main.py line 23). -/
def MAX_CONCURRENT_REQUESTS : Nat := 10

/-- A Python value stored in a strategy-args dict (`extraction_strategy_args`
/ `chunking_strategy_args`). -/
inductive ArgVal where
  | bool (b : Bool)
  | int (n : Int)
  | str (s : String)
  | pynone
deriving DecidableEq, Repr

/-- A Python keyword-argument dict, embedded as an association list with
unique-by-update keys. -/
def Args : Type := List (String × ArgVal)

instance : DecidableEq Args := inferInstanceAs (DecidableEq (List (String × ArgVal)))

/-- Python dict assignment `d[k] = v`: replace the binding of `k` when it is
present, otherwise append a new binding. -/
def setArg : Args → String → ArgVal → Args
  | [], k, v => [(k, v)]
  | (k', v') :: rest, k, v =>
      if k' = k then (k, v) :: rest else (k', v') :: setArg rest k v

/-- Python dict read `d.get(k)`. -/
def lookupArg : Args → String → Option ArgVal
  | [], _ => none
  | (k', v') :: rest, k => if k' = k then some v' else lookupArg rest k

/-- The body of `CrawlRequest` (src/main.py lines 48-59).  Pydantic defaults
are the field defaults; the two args dicts default to `{}`. -/
structure CrawlRequest where
  urls : List String
  include_raw_html : Bool := false
  bypass_cache : Bool := false
  extract_blocks : Bool := true
  word_count_threshold : Option Nat := some 5
  extraction_strategy : String := "NoExtractionStrategy"
  extraction_strategy_args : Args := []
  chunking_strategy : String := "RegexChunking"
  chunking_strategy_args : Args := []
  css_selector : Option String := none
  verbose : Bool := true
deriving DecidableEq

/-- Modelled from the spec: a `CrawlResult` is produced by the external
Crawler Engine (`crawl4ai.web_crawler`, not under src/) and carries extracted
blocks, chunked segments, optional raw content and a success indication. -/
structure CrawlResult where
  url : String
  success : Bool
  html : Option String
  extracted_blocks : List String
  chunked_segments : List String
deriving DecidableEq, Repr

/-- A resolved strategy handle: the class that was constructed together with
the keyword arguments its constructor received. -/
structure Strategy where
  className : String
  kwargs : Args
deriving DecidableEq

/-- An embedded Python exception.  `httpException` is FastAPI's
`HTTPException(status_code, detail)`, rendered with that status code;
`constructionError` is an uncaught error raised by a strategy constructor
(e.g. a `TypeError` for bad keyword args); `resourceError` is an uncaught
error raised by one crawler job.  Exceptions other than `httpException`
surface as generic 500 internal failures. -/
inductive Exc where
  | httpException (status : Nat) (detail : String)
  | constructionError (msg : String)
  | resourceError (msg : String)
deriving DecidableEq, Repr

/-- Modelled from the spec: an importable strategy module
(`crawl4ai.extraction_strategy` / `crawl4ai.chunking_strategy`, external to
src/): the class names `getattr` finds in it, and the constructor behaviour
of each class, which either returns an instance or fails with a message. -/
structure PyModule where
  classes : List String
  construct : String → Args → Except String Strategy

/-- The importable modules visible to `importlib.import_module`. -/
def Modules : Type := List (String × PyModule)

/-- Module lookup; `none` embeds an `ImportError`. -/
def findModule : Modules → String → Option PyModule
  | [], _ => none
  | (n, m) :: rest, name => if n = name then some m else findModule rest name

/-- The f-string detail of the `ImportError` branch of `import_strategy`. -/
def moduleNotFoundDetail (module_name : String) : String :=
  "Module " ++ module_name ++ " not found."

/-- The f-string detail of the `AttributeError` branch of `import_strategy`. -/
def classNotFoundDetail (class_name module_name : String) : String :=
  "Class " ++ class_name ++ " not found in " ++ module_name ++ "."

/-- `import_strategy` (src/main.py lines 85-95): import the module, fetch the
class, construct it with the given kwargs.  `ImportError` and
`AttributeError` are caught and re-raised as 400 `HTTPException`s; an error
raised by the constructor itself is not caught and propagates. -/
def import_strategy (M : Modules) (module_name class_name : String)
    (kwargs : Args) : Except Exc Strategy :=
  match findModule M module_name with
  | none =>
      .error (.httpException 400 (moduleNotFoundDetail module_name))
  | some m =>
      if class_name ∈ m.classes then
        match m.construct class_name kwargs with
        | .ok s => .ok s
        | .error msg => .error (.constructionError msg)
      else
        .error (.httpException 400
          (classNotFoundDetail class_name module_name))

/-- The external Crawler Engine: `get_crawler().run` applied to the
positional arguments of src/main.py lines 121-128 (url,
word_count_threshold, extraction strategy, chunking strategy, bypass_cache,
css_selector, verbose).  A job either returns a `CrawlResult` or raises. -/
def Engine : Type :=
  String → Option Nat → Strategy → Strategy → Bool → Option String → Bool →
    Except Exc CrawlResult

/-- Lines 108-109: the handler writes `verbose = True` into both caller
supplied strategy-args dicts before resolving the strategies, mutating the
request in place. -/
def prepareRequest (req : CrawlRequest) : CrawlRequest :=
  { req with
    extraction_strategy_args := setArg req.extraction_strategy_args "verbose" (.bool true)
    chunking_strategy_args := setArg req.chunking_strategy_args "verbose" (.bool true) }

/-- The fan-out/fan-in of lines 116-132: one job per url, in input order,
joined by `asyncio.gather` without `return_exceptions`, so the first failing
job's exception propagates and no result list is produced. -/
def dispatchJobs (E : Engine) (wct : Option Nat) (es cs : Strategy)
    (bypass : Bool) (css : Option String) (verbose : Bool) :
    List String → Except Exc (List CrawlResult)
  | [] => .ok []
  | url :: rest =>
      match E url wct es cs bypass css verbose with
      | .error e => .error e
      | .ok r =>
          match dispatchJobs E wct es cs bypass css verbose rest with
          | .error e => .error e
          | .ok rs => .ok (r :: rs)

/-- Lines 134-137: when `include_raw_html` is false, null the `html` field of
every result; otherwise leave the results untouched. -/
def shapeResults (include_raw_html : Bool) (results : List CrawlResult) :
    List CrawlResult :=
  if include_raw_html then results
  else results.map (fun r => { r with html := none })

/-- The `try` block of `crawl_urls` (lines 106-139): mutate the args dicts,
resolve both strategies, fan the urls out, shape and return the results.
Any raised exception is the `.error` value. -/
def crawl_body (M : Modules) (E : Engine) (req : CrawlRequest) :
    Except Exc (List CrawlResult) :=
  let req := prepareRequest req
  match import_strategy M "crawl4ai.extraction_strategy"
      req.extraction_strategy req.extraction_strategy_args with
  | .error e => .error e
  | .ok extraction_strategy =>
    match import_strategy M "crawl4ai.chunking_strategy"
        req.chunking_strategy req.chunking_strategy_args with
    | .error e => .error e
    | .ok chunking_strategy =>
      match dispatchJobs E req.word_count_threshold extraction_strategy
          chunking_strategy req.bypass_cache req.css_selector req.verbose
          req.urls with
      | .error e => .error e
      | .ok results => .ok (shapeResults req.include_raw_html results)

/-- The admission critical section (lines 101-104), one atomic step under the
lock: reject without side effect at capacity, otherwise increment and admit. -/
def try_admit (current_requests : Nat) : Nat × Bool :=
  if current_requests ≥ MAX_CONCURRENT_REQUESTS then (current_requests, false)
  else (current_requests + 1, true)

/-- The `/crawl` handler `crawl_urls` (lines 97-142) as a function from the
counter state to the new counter state and the outcome.  The rejection path
raises 429 before the increment; on admission the `try`/`finally` guarantees
the decrement (itself an atomic locked step) runs whatever the body does. -/
def crawl_urls (M : Modules) (E : Engine) (current_requests : Nat)
    (req : CrawlRequest) : Nat × Except Exc (List CrawlResult) :=
  match try_admit current_requests with
  | (st, false) =>
      (st, .error (.httpException 429 "Too many requests - please try again later."))
  | (st, true) =>
      (st - 1, crawl_body M E req)

/-! ### The admission state machine

The state of the admission controller across an arbitrary interleaving of
requests: the shared counter `current_requests` (a Python integer, so
embedded as `Int`) together with the number of admitted requests whose
`finally` block has not yet run.  A `release` step is enabled only when such
a request exists, because the decrement at lines 140-142 is executed exactly
by the `finally` block of a previously admitted request; both critical
sections of the handler are single steps, as they run under `lock`. -/

/-- See the section comment above. -/
structure AdmState where
  current_requests : Int
  pending : Nat
deriving DecidableEq, Repr

/-- One atomic step of the admission controller: an admitted request
(check passes, counter incremented), a rejected request (counter untouched),
or the `finally` block of one of the `pending` admitted requests (counter
decremented). -/
inductive AdmStep : AdmState → AdmState → Prop
  | acquire (s : AdmState) :
      s.current_requests < (MAX_CONCURRENT_REQUESTS : Int) →
      AdmStep s ⟨s.current_requests + 1, s.pending + 1⟩
  | reject (s : AdmState) :
      (MAX_CONCURRENT_REQUESTS : Int) ≤ s.current_requests →
      AdmStep s s
  | release (s : AdmState) (p : Nat) :
      s.pending = p + 1 →
      AdmStep s ⟨s.current_requests - 1, p⟩

/-- States reachable from server start (`current_requests = 0`, no request
in flight). -/
inductive AdmReachable : AdmState → Prop
  | init : AdmReachable ⟨0, 0⟩
  | step {s s' : AdmState} : AdmReachable s → AdmStep s s' → AdmReachable s'

/-- Strengthened invariant: the counter always equals the number of
in-flight admitted requests and never exceeds capacity. -/
theorem admReachable_inv (s : AdmState) (h : AdmReachable s) :
    s.current_requests = s.pending ∧
      s.current_requests ≤ (MAX_CONCURRENT_REQUESTS : Int) := by
  induction h with
  | init => exact ⟨rfl, by decide⟩
  | step _ hstep ih =>
    obtain ⟨h1, h2⟩ := ih
    cases hstep with
    | acquire hlt => exact ⟨by dsimp only; omega, by dsimp only; omega⟩
    | reject hge => exact ⟨h1, h2⟩
    | release p hp => exact ⟨by dsimp only; omega, by dsimp only; omega⟩

/-! ### Concrete fixtures used by witnesses and counterexamples -/

/-- A strategy module in which both default strategy classes are registered
and every construction succeeds, recording the class name and the kwargs the
constructor received. -/
def okStrategyModule : PyModule where
  classes := ["NoExtractionStrategy", "RegexChunking"]
  construct := fun n a => .ok ⟨n, a⟩

/-- Both strategy namespaces of the handler, with well-behaved modules. -/
def testModules : Modules :=
  [("crawl4ai.extraction_strategy", okStrategyModule),
   ("crawl4ai.chunking_strategy", okStrategyModule)]

/-- A successful engine result for one url. -/
def okResult (url : String) : CrawlResult where
  url := url
  success := true
  html := some ("<html>" ++ url ++ "</html>")
  extracted_blocks := [url ++ "-block"]
  chunked_segments := [url ++ "-chunk"]

/-- An engine on which every job succeeds. -/
def okEngine : Engine := fun url _ _ _ _ _ _ => .ok (okResult url)

/-- An engine on which exactly the job for `bad` raises. -/
def failOn (bad : String) : Engine := fun url _ _ _ _ _ _ =>
  if url = bad then .error (.resourceError ("job failed: " ++ bad))
  else .ok (okResult url)

/-- A three-url request with all defaults. -/
def reqABC : CrawlRequest := { urls := ["a", "b", "c"] }

/-- An extraction-strategy module with no classes registered at all. -/
def emptyModule : PyModule where
  classes := []
  construct := fun n a => .ok ⟨n, a⟩

/-- Namespaces in which the extraction module exists but registers no class. -/
def modulesNoClass : Modules :=
  [("crawl4ai.extraction_strategy", emptyModule),
   ("crawl4ai.chunking_strategy", okStrategyModule)]

/-- Namespaces in which the chunking module exists but registers no class,
while the extraction module is well-behaved. -/
def modulesNoChunkClass : Modules :=
  [("crawl4ai.extraction_strategy", okStrategyModule),
   ("crawl4ai.chunking_strategy", emptyModule)]

/-- A module whose classes are registered but whose constructors reject
every kwargs mapping (a Python `TypeError`). -/
def rejectingModule : PyModule where
  classes := ["NoExtractionStrategy", "RegexChunking"]
  construct := fun _ _ => .error "unexpected keyword argument"

/-- Namespaces in which both constructors fail. -/
def modulesRejecting : Modules :=
  [("crawl4ai.extraction_strategy", rejectingModule),
   ("crawl4ai.chunking_strategy", rejectingModule)]

/-- Namespaces in which only the chunking constructor fails, while the
extraction module is well-behaved. -/
def modulesChunkRejecting : Modules :=
  [("crawl4ai.extraction_strategy", okStrategyModule),
   ("crawl4ai.chunking_strategy", rejectingModule)]

/-! ### Helper lemmas -/

/-- Reading back a key just written by Python dict assignment. -/
theorem lookupArg_setArg_self (a : Args) (k : String) (v : ArgVal) :
    lookupArg (setArg a k v) k = some v := by
  induction a with
  | nil => simp [setArg, lookupArg]
  | cons kv rest ih =>
    obtain ⟨k', v'⟩ := kv
    by_cases hk : k' = k
    · simp [setArg, lookupArg, hk]
    · simp [setArg, lookupArg, hk, ih]

/-- `shapeResults` never changes the number of results. -/
theorem shapeResults_length (b : Bool) (rs : List CrawlResult) :
    (shapeResults b rs).length = rs.length := by
  cases b <;> simp [shapeResults]

/-- Characterization of a successful fan-out/fan-in: one outcome per url,
slot `i` holding exactly the engine's result for url `i`. -/
theorem dispatchJobs_ok (E : Engine) (wct : Option Nat) (es cs : Strategy)
    (bypass : Bool) (css : Option String) (vb : Bool) (urls : List String) :
    ∀ rs : List CrawlResult,
      dispatchJobs E wct es cs bypass css vb urls = .ok rs →
      rs.length = urls.length ∧
      ∀ i (h : i < urls.length) (h2 : i < rs.length),
        E urls[i] wct es cs bypass css vb = .ok rs[i] := by
  induction urls with
  | nil =>
    intro rs h
    simp only [dispatchJobs] at h
    cases h
    exact ⟨rfl, by intro i h _; simp at h⟩
  | cons url rest ih =>
    intro rs h
    simp only [dispatchJobs] at h
    cases hE : E url wct es cs bypass css vb with
    | error e => rw [hE] at h; simp at h
    | ok r =>
      rw [hE] at h
      cases hR : dispatchJobs E wct es cs bypass css vb rest with
      | error e => rw [hR] at h; simp at h
      | ok rs2 =>
        rw [hR] at h
        simp only [Except.ok.injEq] at h
        subst h
        obtain ⟨hlen, hslot⟩ := ih rs2 hR
        refine ⟨by simp [hlen], ?_⟩
        intro i hi hi2
        cases i with
        | zero => simpa using hE
        | succ n =>
          simp only [List.getElem_cons_succ]
          exact hslot n (by simpa using hi) (by simpa using hi2)

/-! ### Claims -/

/-- Claim C1: for every admitted crawl request (the check passed, the
counter was incremented), the counter is decremented exactly once on every
termination path: whatever the `try` body produces — successful reply,
strategy-resolution failure (400 `HTTPException`), uncaught construction
error, per-resource job failure, or any other exception, all of which are
covered by quantifying over every module namespace `M` and engine `E` — the
final counter equals its value before admission, and the response is
exactly the body's outcome. -/
theorem admission_slot_released_on_every_path (M : Modules) (E : Engine)
    (req : CrawlRequest) (st : Nat) (hadm : st < MAX_CONCURRENT_REQUESTS) :
    crawl_urls M E st req = (st, crawl_body M E req) := by
  unfold crawl_urls try_admit
  rw [if_neg (by omega)]
  simp

/-- Witness for C1 at a concrete admitted request. -/
theorem admission_slot_released_on_every_path_witness :
    crawl_urls testModules okEngine 0 reqABC =
      (0, crawl_body testModules okEngine reqABC) :=
  admission_slot_released_on_every_path testModules okEngine reqABC 0 (by decide)

/-- Claim C2: the admission gate: at or above capacity
(`MAX_CONCURRENT_REQUESTS = 10`) the request is rejected with the distinct
429 `HTTPException` (not a 5xx or generic failure) and the counter is left
unchanged; below capacity the counter is incremented by one and the request
is admitted.  The check and the increment are the single step `try_admit`:
lines 101-104 execute as one critical section under `lock`. -/
theorem admission_check_and_increment (st : Nat) :
    (MAX_CONCURRENT_REQUESTS ≤ st →
      try_admit st = (st, false) ∧
      ∀ (M : Modules) (E : Engine) (req : CrawlRequest),
        crawl_urls M E st req =
          (st, .error (.httpException 429
            "Too many requests - please try again later."))) ∧
    (st < MAX_CONCURRENT_REQUESTS → try_admit st = (st + 1, true)) := by
  constructor
  · intro hge
    have ht : try_admit st = (st, false) := by
      unfold try_admit
      rw [if_pos hge]
    refine ⟨ht, ?_⟩
    intro M E req
    unfold crawl_urls
    rw [ht]
  · intro hlt
    unfold try_admit
    rw [if_neg (by omega)]

/-- Witness for C2 at capacity (10) and below capacity (3). -/
theorem admission_check_and_increment_witness :
    try_admit 10 = (10, false) ∧ try_admit 3 = (4, true) :=
  ⟨((admission_check_and_increment 10).1 (by decide)).1,
   (admission_check_and_increment 3).2 (by decide)⟩

/-- Claim C3: `0 ≤ current_requests ≤ MAX_CONCURRENT_REQUESTS` is an
invariant of the admission state machine: it holds in every state reachable
from server start (`current_requests = 0`) under any interleaving of
admission steps (check-and-increment under the lock) and release steps
(decrement under the lock, one per in-flight admitted request); no step
makes the in-flight count exceed capacity. -/
theorem inflight_counter_invariant (s : AdmState) (h : AdmReachable s) :
    0 ≤ s.current_requests ∧
      s.current_requests ≤ (MAX_CONCURRENT_REQUESTS : Int) := by
  obtain ⟨h1, h2⟩ := admReachable_inv s h
  exact ⟨by omega, h2⟩

/-- Witness for C3 at the state reached by one admission from start. -/
theorem inflight_counter_invariant_witness :
    0 ≤ (AdmState.mk 1 1).current_requests ∧
      (AdmState.mk 1 1).current_requests ≤ (MAX_CONCURRENT_REQUESTS : Int) :=
  inflight_counter_invariant ⟨1, 1⟩
    (AdmReachable.step AdmReachable.init (AdmStep.acquire ⟨0, 0⟩ (by decide)))

/-- Length of a fully successful `crawl_body` reply. -/
theorem crawl_body_ok_length (M : Modules) (E : Engine) (req : CrawlRequest)
    (out : List CrawlResult) (h : crawl_body M E req = .ok out) :
    out.length = req.urls.length := by
  simp only [crawl_body] at h
  split at h
  · exact absurd h (by simp)
  · split at h
    · exact absurd h (by simp)
    · split at h
      · exact absurd h (by simp)
      · rename_i results h3
        simp only [Except.ok.injEq] at h
        subst h
        rw [shapeResults_length]
        exact (dispatchJobs_ok _ _ _ _ _ _ _ _ _ h3).1

/-- Claim C4 counterexample: an admitted request with three urls on which
the job for `"b"` raises does not get a three-outcome reply: the handler's
outcome is the propagated job exception (`asyncio.gather` is called without
`return_exceptions`), so the reply is not independent of individual
resource failure. -/
theorem reply_not_failure_independent :
    reqABC.urls.length = 3 ∧
    (crawl_urls testModules (failOn "b") 0 reqABC).2 =
      .error (.resourceError "job failed: b") := by
  exact ⟨rfl, rfl⟩

/-- Claim C4 (amended): the dispatcher creates one job per url, in input
order; when every job succeeds the reply contains exactly N outcomes with
slot i holding precisely the engine's result for url i (the sequential join
makes the sequence independent of completion order), and a successful
handler reply always has one outcome per url; but when any job fails the
exception propagates and no reply is produced (see the counterexample). -/
theorem fanout_one_job_per_url_ordered (E : Engine) (wct : Option Nat)
    (es cs : Strategy) (bypass : Bool) (css : Option String) (vb : Bool)
    (urls : List String) (rs : List CrawlResult)
    (h : dispatchJobs E wct es cs bypass css vb urls = .ok rs) :
    (rs.length = urls.length ∧
      ∀ i (hi : i < urls.length) (hi2 : i < rs.length),
        E urls[i] wct es cs bypass css vb = .ok rs[i]) ∧
    ∀ (M : Modules) (req : CrawlRequest) (out : List CrawlResult),
      crawl_body M E req = .ok out → out.length = req.urls.length := by
  refine ⟨dispatchJobs_ok E wct es cs bypass css vb urls rs h, ?_⟩
  intro M req out hbody
  exact crawl_body_ok_length M E req out hbody

/-- Witness for the amended C4 on a concrete two-url all-success batch. -/
theorem fanout_one_job_per_url_ordered_witness :
    [okResult "a", okResult "b"].length = (["a", "b"] : List String).length :=
  (fanout_one_job_per_url_ordered okEngine (some 5)
    ⟨"NoExtractionStrategy", []⟩ ⟨"RegexChunking", []⟩ false none true
    ["a", "b"] [okResult "a", okResult "b"] rfl).1.1

/-- Claim C5 counterexample: with the job for `"b"` raising in the batch
`["a", "b", "c"]`, the body produces no outcome sequence at all — the
failure is not recorded in outcome slot 2, and the sibling outcomes are not
returned: the whole request fails with the propagated job exception. -/
theorem no_per_resource_failure_slots :
    crawl_body testModules (failOn "b") reqABC =
      .error (.resourceError "job failed: b") ∧
    reqABC.urls.length = 3 := by
  exact ⟨rfl, rfl⟩

/-- Claim C5 (amended): when the fan-out over an admitted request's urls
fails (some job raised, so `asyncio.gather` re-raises), the whole request
fails with that same exception: no per-resource failure descriptor is
placed in any slot and the sibling results are discarded rather than
returned; the admission slot is still released (the final counter equals the
pre-admission one). -/
theorem job_failure_aborts_request (M : Modules) (E : Engine)
    (req : CrawlRequest) (st : Nat) (es cs : Strategy) (e : Exc)
    (hadm : st < MAX_CONCURRENT_REQUESTS)
    (hE : import_strategy M "crawl4ai.extraction_strategy"
        (prepareRequest req).extraction_strategy
        (prepareRequest req).extraction_strategy_args = .ok es)
    (hC : import_strategy M "crawl4ai.chunking_strategy"
        (prepareRequest req).chunking_strategy
        (prepareRequest req).chunking_strategy_args = .ok cs)
    (hD : dispatchJobs E (prepareRequest req).word_count_threshold es cs
        (prepareRequest req).bypass_cache (prepareRequest req).css_selector
        (prepareRequest req).verbose (prepareRequest req).urls = .error e) :
    crawl_urls M E st req = (st, .error e) := by
  have hbody : crawl_body M E req = .error e := by
    simp only [crawl_body, hE, hC, hD]
  unfold crawl_urls try_admit
  rw [if_neg (by omega)]
  simp [hbody]

/-- Witness for the amended C5 at the concrete failing batch. -/
theorem job_failure_aborts_request_witness :
    crawl_urls testModules (failOn "b") 0 reqABC =
      (0, .error (.resourceError "job failed: b")) :=
  job_failure_aborts_request testModules (failOn "b") reqABC 0
    ⟨"NoExtractionStrategy", [("verbose", ArgVal.bool true)]⟩
    ⟨"RegexChunking", [("verbose", ArgVal.bool true)]⟩
    (.resourceError "job failed: b")
    (by decide) rfl rfl rfl

/-- Claim C6: result shaping depends only on the include-raw flag: with
`include_raw_html = true` the results are returned exactly as the engine
produced them; with `include_raw_html = false` (the default) every result's
`html` field is cleared to `none` before serialization, while the url,
success flag, extracted blocks and chunked segments of every slot are left
unchanged. -/
theorem include_raw_shaping (results : List CrawlResult) :
    shapeResults true results = results ∧
    (shapeResults false results).map (fun r => r.html) =
      List.replicate results.length none ∧
    (shapeResults false results).map (fun r => r.url) =
      results.map (fun r => r.url) ∧
    (shapeResults false results).map (fun r => r.success) =
      results.map (fun r => r.success) ∧
    (shapeResults false results).map (fun r => r.extracted_blocks) =
      results.map (fun r => r.extracted_blocks) ∧
    (shapeResults false results).map (fun r => r.chunked_segments) =
      results.map (fun r => r.chunked_segments) := by
  refine ⟨rfl, ?_, ?_, ?_, ?_, ?_⟩ <;>
  · induction results with
    | nil => rfl
    | cons r rest ih =>
      simp only [shapeResults, Bool.false_eq_true, if_false, List.map_cons,
        List.length_cons, List.replicate_succ] at ih ⊢
      rw [ih]

/-- Claim C7: naming an extraction-strategy or a chunking-strategy class
with no registered implementation in its namespace fails with the distinct
400 `HTTPException` naming the class (the `AttributeError` is caught in
`import_strategy` and re-raised as a bad request, never a generic failure);
the resolver returns the error, so no strategy handle is even partially
constructed; the failure is decided before any per-resource work — the
handler's outcome is identical for every engine `E` — and the admission
slot is still released.  The first conjunct is the unregistered extraction
class; the second is the unregistered chunking class, which surfaces once
extraction resolution (attempted first, line 111) has produced a handle. -/
theorem strategy_not_found_fails_fast (M : Modules) (E : Engine)
    (me mc : PyModule) (req : CrawlRequest) (st : Nat)
    (hadm : st < MAX_CONCURRENT_REQUESTS)
    (hme : findModule M "crawl4ai.extraction_strategy" = some me)
    (hmc : findModule M "crawl4ai.chunking_strategy" = some mc) :
    (req.extraction_strategy ∉ me.classes →
      import_strategy M "crawl4ai.extraction_strategy" req.extraction_strategy
          (setArg req.extraction_strategy_args "verbose" (ArgVal.bool true)) =
        .error (.httpException 400
          (classNotFoundDetail req.extraction_strategy
            "crawl4ai.extraction_strategy")) ∧
      crawl_urls M E st req =
        (st, .error (.httpException 400
          (classNotFoundDetail req.extraction_strategy
            "crawl4ai.extraction_strategy")))) ∧
    (∀ es : Strategy,
      import_strategy M "crawl4ai.extraction_strategy"
          (prepareRequest req).extraction_strategy
          (prepareRequest req).extraction_strategy_args = .ok es →
      req.chunking_strategy ∉ mc.classes →
      import_strategy M "crawl4ai.chunking_strategy" req.chunking_strategy
          (setArg req.chunking_strategy_args "verbose" (ArgVal.bool true)) =
        .error (.httpException 400
          (classNotFoundDetail req.chunking_strategy
            "crawl4ai.chunking_strategy")) ∧
      crawl_urls M E st req =
        (st, .error (.httpException 400
          (classNotFoundDetail req.chunking_strategy
            "crawl4ai.chunking_strategy")))) := by
  constructor
  · intro hcls
    have hs : (prepareRequest req).extraction_strategy =
        req.extraction_strategy := rfl
    have himp : import_strategy M "crawl4ai.extraction_strategy"
        (prepareRequest req).extraction_strategy
        (prepareRequest req).extraction_strategy_args =
        .error (.httpException 400
          (classNotFoundDetail req.extraction_strategy
            "crawl4ai.extraction_strategy")) := by
      simp only [import_strategy, hme, hs]
      rw [if_neg hcls]
    refine ⟨himp, ?_⟩
    have hbody : crawl_body M E req =
        .error (.httpException 400
          (classNotFoundDetail req.extraction_strategy
            "crawl4ai.extraction_strategy")) := by
      simp only [crawl_body, himp]
    unfold crawl_urls try_admit
    rw [if_neg (by omega)]
    simp [hbody]
  · intro es hes hcls
    have hs : (prepareRequest req).chunking_strategy =
        req.chunking_strategy := rfl
    have himp : import_strategy M "crawl4ai.chunking_strategy"
        (prepareRequest req).chunking_strategy
        (prepareRequest req).chunking_strategy_args =
        .error (.httpException 400
          (classNotFoundDetail req.chunking_strategy
            "crawl4ai.chunking_strategy")) := by
      simp only [import_strategy, hmc, hs]
      rw [if_neg hcls]
    refine ⟨himp, ?_⟩
    have hbody : crawl_body M E req =
        .error (.httpException 400
          (classNotFoundDetail req.chunking_strategy
            "crawl4ai.chunking_strategy")) := by
      simp only [crawl_body, hes, himp]
    unfold crawl_urls try_admit
    rw [if_neg (by omega)]
    simp [hbody]

/-- Witness for C7, exercising both branches: the default extraction
strategy name against a namespace registering no extraction classes, and
the default chunking strategy name against a namespace registering no
chunking classes (with extraction resolving fine), both at counter 0. -/
theorem strategy_not_found_fails_fast_witness :
    crawl_urls modulesNoClass okEngine 0 reqABC =
      (0, .error (.httpException 400
        (classNotFoundDetail "NoExtractionStrategy"
          "crawl4ai.extraction_strategy"))) ∧
    crawl_urls modulesNoChunkClass okEngine 0 reqABC =
      (0, .error (.httpException 400
        (classNotFoundDetail "RegexChunking"
          "crawl4ai.chunking_strategy"))) :=
  ⟨((strategy_not_found_fails_fast modulesNoClass okEngine emptyModule
      okStrategyModule reqABC 0 (by decide) rfl rfl).1
      (by simp [emptyModule])).2,
   ((strategy_not_found_fails_fast modulesNoChunkClass okEngine
      okStrategyModule emptyModule reqABC 0 (by decide) rfl rfl).2
      ⟨"NoExtractionStrategy", [("verbose", ArgVal.bool true)]⟩ rfl
      (by simp [emptyModule])).2⟩

/-- Claim C8 counterexample: with both default classes registered but a
constructor that rejects its kwargs, the admitted request's outcome is the
uncaught `constructionError` — a different constructor of `Exc` than the
`httpException` used for bad requests, hence rendered by the transport as a
generic 500 internal failure, not a 400. -/
theorem construction_error_not_bad_request :
    (crawl_urls modulesRejecting okEngine 0 reqABC).2 =
      .error (.constructionError "unexpected keyword argument") ∧
    Exc.constructionError "unexpected keyword argument" ≠
      Exc.httpException 400 "unexpected keyword argument" := by
  exact ⟨rfl, by simp⟩

/-- Claim C8 (amended): when a strategy class — extraction or chunking — is
registered but its constructor rejects the (verbose-injected) args, the
error is not among the exceptions `import_strategy` catches: it propagates
out of the handler as an unanticipated exception — a generic internal
failure distinct from every `HTTPException` — rather than a bad-request
outcome; the admission slot is still released.  The first conjunct is the
failing extraction constructor; the second the failing chunking
constructor, which is reached once extraction resolution (attempted first,
line 111) has produced a handle. -/
theorem construction_error_propagates (M : Modules) (E : Engine)
    (me mc : PyModule) (req : CrawlRequest) (st : Nat) (msg : String)
    (hadm : st < MAX_CONCURRENT_REQUESTS)
    (hme : findModule M "crawl4ai.extraction_strategy" = some me)
    (hmc : findModule M "crawl4ai.chunking_strategy" = some mc) :
    (req.extraction_strategy ∈ me.classes →
      me.construct req.extraction_strategy
          (setArg req.extraction_strategy_args "verbose" (ArgVal.bool true)) =
        .error msg →
      crawl_urls M E st req = (st, .error (.constructionError msg))) ∧
    (∀ es : Strategy,
      import_strategy M "crawl4ai.extraction_strategy"
          (prepareRequest req).extraction_strategy
          (prepareRequest req).extraction_strategy_args = .ok es →
      req.chunking_strategy ∈ mc.classes →
      mc.construct req.chunking_strategy
          (setArg req.chunking_strategy_args "verbose" (ArgVal.bool true)) =
        .error msg →
      crawl_urls M E st req = (st, .error (.constructionError msg))) ∧
    (∀ (status : Nat) (detail : String),
      Exc.constructionError msg ≠ Exc.httpException status detail) := by
  refine ⟨?_, ?_, ?_⟩
  · intro hcls hctor
    have himp : import_strategy M "crawl4ai.extraction_strategy"
        (prepareRequest req).extraction_strategy
        (prepareRequest req).extraction_strategy_args =
        .error (.constructionError msg) := by
      have hs : (prepareRequest req).extraction_strategy =
          req.extraction_strategy := rfl
      have ha : (prepareRequest req).extraction_strategy_args =
          setArg req.extraction_strategy_args "verbose" (ArgVal.bool true) := rfl
      simp only [import_strategy, hme, hs, ha]
      rw [if_pos hcls, hctor]
    have hbody : crawl_body M E req = .error (.constructionError msg) := by
      simp only [crawl_body, himp]
    unfold crawl_urls try_admit
    rw [if_neg (by omega)]
    simp [hbody]
  · intro es hes hcls hctor
    have himp : import_strategy M "crawl4ai.chunking_strategy"
        (prepareRequest req).chunking_strategy
        (prepareRequest req).chunking_strategy_args =
        .error (.constructionError msg) := by
      have hs : (prepareRequest req).chunking_strategy =
          req.chunking_strategy := rfl
      have ha : (prepareRequest req).chunking_strategy_args =
          setArg req.chunking_strategy_args "verbose" (ArgVal.bool true) := rfl
      simp only [import_strategy, hmc, hs, ha]
      rw [if_pos hcls, hctor]
    have hbody : crawl_body M E req = .error (.constructionError msg) := by
      simp only [crawl_body, hes, himp]
    unfold crawl_urls try_admit
    rw [if_neg (by omega)]
    simp [hbody]
  · intro status detail hne
    exact Exc.noConfusion hne

/-- Witness for the amended C8, exercising both branches: a rejecting
extraction constructor, and a rejecting chunking constructor behind a
well-behaved extraction module, both at counter 0. -/
theorem construction_error_propagates_witness :
    crawl_urls modulesRejecting okEngine 0 reqABC =
      (0, .error (.constructionError "unexpected keyword argument")) ∧
    crawl_urls modulesChunkRejecting okEngine 0 reqABC =
      (0, .error (.constructionError "unexpected keyword argument")) :=
  ⟨(construction_error_propagates modulesRejecting okEngine rejectingModule
      rejectingModule reqABC 0 "unexpected keyword argument"
      (by decide) rfl rfl).1 (by decide) rfl,
   ((construction_error_propagates modulesChunkRejecting okEngine
      okStrategyModule rejectingModule reqABC 0 "unexpected keyword argument"
      (by decide) rfl rfl).2.1
      ⟨"NoExtractionStrategy", [("verbose", ArgVal.bool true)]⟩ rfl
      (by decide) rfl)⟩

/-- Claim C9 counterexample: the request is not immutable during
processing: before strategy resolution the handler overwrites both
strategy-args mappings of the caller's request with `verbose = True`
(lines 108-109), so the processed request differs from the one received —
here the caller supplied empty mappings. -/
theorem request_mutated :
    (prepareRequest reqABC).extraction_strategy_args ≠
      reqABC.extraction_strategy_args ∧
    prepareRequest reqABC ≠ reqABC := by
  exact ⟨by decide, by decide⟩

/-- Claim C9 (amended): processing leaves every field of the request
unchanged except the two strategy-args mappings, each of which is mutated
exactly by setting the key `verbose` to `True`. -/
theorem request_frame_except_args (req : CrawlRequest) :
    (prepareRequest req).urls = req.urls ∧
    (prepareRequest req).include_raw_html = req.include_raw_html ∧
    (prepareRequest req).bypass_cache = req.bypass_cache ∧
    (prepareRequest req).extract_blocks = req.extract_blocks ∧
    (prepareRequest req).word_count_threshold = req.word_count_threshold ∧
    (prepareRequest req).extraction_strategy = req.extraction_strategy ∧
    (prepareRequest req).chunking_strategy = req.chunking_strategy ∧
    (prepareRequest req).css_selector = req.css_selector ∧
    (prepareRequest req).verbose = req.verbose ∧
    (prepareRequest req).extraction_strategy_args =
      setArg req.extraction_strategy_args "verbose" (ArgVal.bool true) ∧
    (prepareRequest req).chunking_strategy_args =
      setArg req.chunking_strategy_args "verbose" (ArgVal.bool true) := by
  exact ⟨rfl, rfl, rfl, rfl, rfl, rfl, rfl, rfl, rfl, rfl, rfl⟩

/-- Claim C10: the strategy constructors are invoked with the caller's args
mapping in which `verbose` has been set to the constant `True`: for every
request — whatever `verbose` value the caller put in either args mapping,
and whatever the request's own top-level `verbose` flag is — the kwargs
handed to both constructors by `crawl_body` (namely the two args mappings of
`prepareRequest req`) carry `verbose = True`, so no caller input can reach a
constructor with `verbose = False`. -/
theorem verbose_forced_true (req : CrawlRequest) :
    lookupArg (prepareRequest req).extraction_strategy_args "verbose" =
      some (ArgVal.bool true) ∧
    lookupArg (prepareRequest req).chunking_strategy_args "verbose" =
      some (ArgVal.bool true) :=
  ⟨lookupArg_setArg_self req.extraction_strategy_args "verbose" (ArgVal.bool true),
   lookupArg_setArg_self req.chunking_strategy_args "verbose" (ArgVal.bool true)⟩

end CrawlServer
